import Mathlib

/-!
# Verification of the note-colab write-conflict and reliability core

Shallow embedding of the optimistic-concurrency update path
(`backend/src/controllers/page.ts` / `updatePage`), the cascade delete of
workspaces (`models/wrokspace.ts` pre-hook + `controllers/workspace.ts`),
the server-side retry wrapper (`utils/retryMongoOperation.ts`), the
client-side retry logic (`frontend/src/lib/api.ts`), and the idempotency
middleware (`middleware/idempotency.ts`), together with theorems checking
the specification's claims about them.
-/

namespace NoteColab

/-- A stored page document.  `v` is Mongo's `__v` version field
(non-negative integer, starts at 0).  Ids are modelled as naturals. -/
structure Page where
  id : Nat
  workspaceId : Nat
  title : String
  content : String
  v : Nat
deriving Repr, DecidableEq

/-- The body of a page-update request.  `v` is `req.body.__v`; `none`
models an absent/`undefined` field.  (The Zod update schema does not
validate `__v`, so it reaches the controller as-is; `title`/`content`
are modelled as always supplied.) -/
structure UpdateBody where
  title : String
  content : String
  v : Option Nat
deriving Repr, DecidableEq

/-- Storage: the collection of page documents. -/
abbrev Store := List Page

/-- `Page.findById pageId`: first document whose `_id` matches. -/
def findById (store : Store) (pid : Nat) : Option Page :=
  store.find? (fun p => p.id == pid)

/-- JavaScript strict equality `storedV === clientV` between the stored
numeric `__v` and the submitted `req.body.__v` (a number or `undefined`);
a number is never strictly equal to `undefined`. -/
def strictEqNum (stored : Nat) (clientV : Option Nat) : Bool :=
  match clientV with
  | some n => stored == n
  | none => false

/-- The document produced by `$set { title, content }, $inc { __v: 1 }`. -/
def applyUpd (p : Page) (t c : String) : Page :=
  { p with title := t, content := c, v := p.v + 1 }

/-- `Page.findOneAndUpdate({ _id: pid, __v: cond }, { $set: {title, content},
$inc: {__v: 1} }, { new: true })`: atomically updates the first document
matching both the id and the version predicate, returning the updated
document (`new: true`), or `none` if no document matched. -/
def findOneAndUpdate : Store → Nat → Nat → String → String → Store × Option Page
  | [], _, _, _, _ => ([], none)
  | p :: rest, pid, cond, t, c =>
    if p.id == pid && p.v == cond then
      (applyUpd p t c :: rest, some (applyUpd p t c))
    else
      let r := findOneAndUpdate rest pid cond t c
      (p :: r.1, r.2)

/-- The HTTP response of `updatePage`, abstracted to its JSON content:
404 not-found; 409 conflict with `{serverVersion, clientVersion,
serverContent, clientContent}`; 200 success with `data` (which is the
raw result of `findOneAndUpdate` and hence may be `null`). -/
inductive UpdateResponse where
  | notFound
  | conflict (serverVersion : Nat) (clientVersion : Option Nat)
      (serverContent clientContent : String)
  | ok (data : Option Page)
deriving Repr, DecidableEq

/-- Outcome of the read-and-version-check prefix of `updatePage`
(`Page.findById` followed by the `!==` comparison). -/
inductive ReadPhase where
  | notFoundR
  | conflictR (serverVersion : Nat) (clientVersion : Option Nat)
      (serverContent clientContent : String)
  | proceedR (cond : Nat)
deriving Repr, DecidableEq

/-- The read-and-check prefix of `updatePage`: load the page, 404 if
absent, 409 data if `pageExist.__v !== req.body.__v`, otherwise proceed
to the conditional write with predicate `__v: req.body.__v` (in this
branch `body.v = some pageExist.v`, so `getD` never supplies its
default). -/
def readPhase (store : Store) (pid : Nat) (body : UpdateBody) : ReadPhase :=
  match findById store pid with
  | none => .notFoundR
  | some pageExist =>
    if strictEqNum pageExist.v body.v then .proceedR (body.v.getD 0)
    else .conflictR pageExist.v body.v pageExist.content body.content

/-- The write suffix of `updatePage`: act on the read-phase outcome,
performing the conditional `findOneAndUpdate` against the (possibly
changed) store and answering `200 { data: page }` with its raw result. -/
def writePhase (store : Store) (pid : Nat) (body : UpdateBody) :
    ReadPhase → Store × UpdateResponse
  | .notFoundR => (store, .notFound)
  | .conflictR sv cv sc cc => (store, .conflict sv cv sc cc)
  | .proceedR cond =>
    let r := findOneAndUpdate store pid cond body.title body.content
    (r.1, .ok r.2)

/-- `updatePage` as a whole, run without interference: the read and the
write see the same store. -/
def updatePage (store : Store) (pid : Nat) (body : UpdateBody) :
    Store × UpdateResponse :=
  writePhase store pid body (readPhase store pid body)

/-- `updatePage` with an interfering writer: the initial read sees
`sRead`, while the conditional write executes against `sWrite`. -/
def updatePageInterleaved (sRead sWrite : Store) (pid : Nat) (body : UpdateBody) :
    Store × UpdateResponse :=
  writePhase sWrite pid body (readPhase sRead pid body)

/-- A sequence of successful updates: each request submits the current
stored version as its `__v` together with the next title/content pair.
(A client that re-reads between edits behaves exactly like this.) -/
def runUpdates (pid : Nat) : Store → List (String × String) → Store
  | store, [] => store
  | store, (t, c) :: rest =>
    match findById store pid with
    | none => store
    | some p => runUpdates pid (updatePage store pid ⟨t, c, some p.v⟩).1 rest

/-! ## Two concurrent updates

Each request is two atomic storage actions — the initial read (`r`) and
the conditional write (`w`) — and a request's read precedes its write, so
two requests A and B admit exactly six interleavings. -/

/-- The six interleavings of requests A and B, each consisting of a read
followed by a conditional write. -/
inductive Schedule2 where
  | rAwArBwB | rArBwAwB | rArBwBwA | rBrAwAwB | rBrAwBwA | rBwBrAwA
deriving Repr, DecidableEq

/-- Run two update requests against the same store under a given
interleaving; yields the final store and both responses. -/
def runTwo (store : Store) (pid : Nat) (bodyA bodyB : UpdateBody) :
    Schedule2 → Store × UpdateResponse × UpdateResponse
  | .rAwArBwB =>
    let a := writePhase store pid bodyA (readPhase store pid bodyA)
    let b := writePhase a.1 pid bodyB (readPhase a.1 pid bodyB)
    (b.1, a.2, b.2)
  | .rArBwAwB =>
    let ra := readPhase store pid bodyA
    let rb := readPhase store pid bodyB
    let a := writePhase store pid bodyA ra
    let b := writePhase a.1 pid bodyB rb
    (b.1, a.2, b.2)
  | .rArBwBwA =>
    let ra := readPhase store pid bodyA
    let rb := readPhase store pid bodyB
    let b := writePhase store pid bodyB rb
    let a := writePhase b.1 pid bodyA ra
    (a.1, a.2, b.2)
  | .rBrAwAwB =>
    let rb := readPhase store pid bodyB
    let ra := readPhase store pid bodyA
    let a := writePhase store pid bodyA ra
    let b := writePhase a.1 pid bodyB rb
    (b.1, a.2, b.2)
  | .rBrAwBwA =>
    let rb := readPhase store pid bodyB
    let ra := readPhase store pid bodyA
    let b := writePhase store pid bodyB rb
    let a := writePhase b.1 pid bodyA ra
    (a.1, a.2, b.2)
  | .rBwBrAwA =>
    let b := writePhase store pid bodyB (readPhase store pid bodyB)
    let a := writePhase b.1 pid bodyA (readPhase b.1 pid bodyA)
    (a.1, a.2, b.2)

/-- The request whose conditional write executes first under the
interleaving (`true` = A): in each constructor name the earlier of
`wA`/`wB` identifies it. -/
def firstWriter : Schedule2 → Bool
  | .rAwArBwB | .rArBwAwB | .rBrAwAwB => true
  | .rArBwBwA | .rBrAwBwA | .rBwBrAwA => false

/-- Whether the losing request's initial read happens after the winning
request's conditional write: only in the two fully sequential
interleavings (in `rAwArBwB` the loser B's read `rB` follows `wA`; in
`rBwBrAwA` the loser A's read `rA` follows `wB`; in the other four the
loser's read precedes both writes). -/
def loserReadsAfterWinnerWrite : Schedule2 → Bool
  | .rAwArBwB | .rBwBrAwA => true
  | .rArBwAwB | .rArBwBwA | .rBrAwAwB | .rBrAwBwA => false

/-- Any `409` conflict response. -/
def isConflict : UpdateResponse → Bool
  | .conflict _ _ _ _ => true
  | _ => false

/-! ## Workspace cascade delete -/

/-- A stored workspace document (fields beyond the id are irrelevant to
the cascade claim and collapsed into the title). -/
structure Workspace where
  id : Nat
  title : String
deriving Repr, DecidableEq

/-- The two relevant collections. -/
structure DB where
  workspaces : List Workspace
  pages : List Page
deriving Repr, DecidableEq

/-- The HTTP response of `deleteWorkspace`: 404, 200 success, or a 500
produced by the error middleware when the pre-hook rejects. -/
inductive DeleteWorkspaceResponse where
  | notFound
  | okDeleted
  | serverError
deriving Repr, DecidableEq

/-- `Workspace.findByIdAndDelete(id)` with the schema's
`pre('findOneAndDelete')` hook.  The hook first runs
`Page.deleteMany({ workspaceId })`; the flag `deleteManyOk` models
whether that storage call succeeds or throws.  If it throws, the hook
passes the error on and the workspace document is not deleted; otherwise
the matching pages are removed first and then the workspace document. -/
def findByIdAndDeleteWorkspace (db : DB) (wid : Nat) (deleteManyOk : Bool) :
    Except String (DB × Option Workspace) :=
  if deleteManyOk then
    let db1 : DB := { db with pages := db.pages.filter (fun p => !(p.workspaceId == wid)) }
    match db1.workspaces.find? (fun w => w.id == wid) with
    | some w =>
      .ok ({ db1 with workspaces := db1.workspaces.filter (fun w' => !(w'.id == wid)) }, some w)
    | none => .ok (db1, none)
  else
    .error "deleteMany failed"

/-- The `deleteWorkspace` controller: delete (with cascade hook), 404 if
no workspace matched, else 200; a rejected promise reaches the error
middleware as a 500 and leaves the store as the failed call left it. -/
def deleteWorkspace (db : DB) (wid : Nat) (deleteManyOk : Bool) :
    DB × DeleteWorkspaceResponse :=
  match findByIdAndDeleteWorkspace db wid deleteManyOk with
  | .ok (db', some _) => (db', .okDeleted)
  | .ok (db', none) => (db', .notFound)
  | .error _ => (db, .serverError)

/-! ## Server-side storage retry wrapper (`utils/retryMongoOperation.ts`) -/

/-- The shape of a thrown Mongo error, as far as
`isMongoConnectionError` inspects it: optional `name`, `code` and
`message` fields. -/
structure MongoError where
  name : Option String
  code : Option String
  message : Option String
deriving Repr, DecidableEq

/-- `s.includes(pat)`: `pat` occurs as a contiguous substring of `s`
(for a non-empty pattern, `splitOn` yields at least two pieces exactly
when the pattern occurs). -/
def includesSubstr (s pat : String) : Bool :=
  (s.splitOn pat).length ≥ 2

/-- `isMongoConnectionError`: the transient / connection-class test.
The last disjunct mirrors `error?.message && error.message.includes('connection')`
(an empty message is falsy). -/
def isMongoConnectionError (e : MongoError) : Bool :=
  e.name == some "MongoNetworkError" ||
  e.name == some "MongoServerError" ||
  e.name == some "MongoTimeoutError" ||
  e.code == some "ECONNREFUSED" ||
  e.code == some "ETIMEDOUT" ||
  (match e.message with
   | some m => !m.isEmpty && includesSubstr m "connection"
   | none => false)

/-- The behaviour of the wrapped storage operation, attempt by attempt
(attempt numbers are 0-based, matching the source's loop variable). -/
abbrev Operation (α : Type) := Nat → Except MongoError α

/-- The body of `retryMongoOperation`'s `for` loop, recursing on the
number of retries still allowed (`remaining = maxRetries - attempt`).
Besides the final result it records the list of waits performed
(`min(currentDelay, maxDelay)` before each re-attempt); `currentDelay`
is multiplied by the backoff multiplier after each wait.  With
`remaining = 0` (the last allowed attempt) any error — transient or
not — is thrown, matching the `break`-then-`throw lastError` path. -/
def retryAux (op : Operation α) (maxDelay mult : Nat) :
    Nat → Nat → Nat → Except MongoError α × List Nat
  | 0, attempt, _ => (op attempt, [])
  | remaining + 1, attempt, currentDelay =>
    match op attempt with
    | .ok v => (.ok v, [])
    | .error e =>
      if !isMongoConnectionError e then (.error e, [])
      else
        let d := min currentDelay maxDelay
        let r := retryAux op maxDelay mult remaining (attempt + 1) (currentDelay * mult)
        (r.1, d :: r.2)

/-- `retryMongoOperation(operation, {maxRetries, initialDelay, maxDelay,
backoffMultiplier})`: run the loop from attempt 0 with the initial
delay. -/
def retryMongoOperation (op : Operation α)
    (maxRetries initialDelay maxDelay mult : Nat) :
    Except MongoError α × List Nat :=
  retryAux op maxDelay mult maxRetries 0 initialDelay

/-- The expected wait sequence after `k` consecutive transient failures
starting from delay `d`: the i-th wait is `min(d * mult ^ i, maxDelay)`. -/
def expDelays (k d maxDelay mult : Nat) : List Nat :=
  (List.range k).map (fun i => min (d * mult ^ i) maxDelay)

/-! ## Client-side retry (`frontend/src/lib/api.ts`) -/

/-- The retry configuration held by `ApiClient` (defaults: 3 retries,
1000 ms initial delay, 10000 ms cap, multiplier 2). -/
structure ClientRetryOptions where
  maxRetries : Nat
  initialDelay : Nat
  maxDelay : Nat
  backoffMultiplier : Nat
deriving Repr, DecidableEq

/-- The outcome of one `fetch` + `response.json()` round-trip:
either the transport fails (a `TypeError` with message
"Failed to fetch"), or a response arrives with an HTTP status and a
parsed JSON body exposing `success`, an optional `message`, an optional
`retryAfter` hint (in seconds) and an optional payload. -/
inductive FetchOutcome (α : Type) where
  | networkFailure
  | response (status : Nat) (success : Bool) (message : Option String)
      (retryAfter : Option Nat) (data : Option α)
deriving Repr, DecidableEq

/-- `Response.ok`: status in the range 200–299. -/
def statusOk (status : Nat) : Bool :=
  200 ≤ status && status < 300

/-- The retryable-status test inside `shouldRetry`:
503, 502, 504 or 429. -/
def retryableStatus (status : Nat) : Bool :=
  status == 503 || status == 502 || status == 504 || status == 429

/-- `shouldRetry(error, status?)`: `true` for a transport-level
`TypeError("Failed to fetch")`; otherwise, when a (truthy, i.e.
non-zero) status is supplied, exactly the retryable statuses; `false`
in every other case. -/
def shouldRetry (isNetworkTypeError : Bool) (status : Option Nat) : Bool :=
  if isNetworkTypeError then true
  else
    match status with
    | some s => if s == 0 then false else retryableStatus s
    | none => false

/-- The normalized error thrown by `ApiClient.request`: the body's
`message` (falling back to "HTTP error! status: ⟨s⟩") plus the body's
`retryAfter` hint, copied verbatim. -/
structure ApiError where
  message : String
  retryAfter : Option Nat
deriving Repr, DecidableEq

/-- The wait chosen before a re-attempt on a retryable response:
a truthy (non-zero, present) `retryAfter` hint gives
`min(retryAfter * 1000, maxDelay)`; a falsy one gives the computed
backoff `min(initialDelay * backoffMultiplier ^ retryCount, maxDelay)`. -/
def clientDelay (opts : ClientRetryOptions) (retryCount : Nat)
    (retryAfter : Option Nat) : Nat :=
  match retryAfter with
  | some ra =>
    if ra == 0 then min (opts.initialDelay * opts.backoffMultiplier ^ retryCount) opts.maxDelay
    else min (ra * 1000) opts.maxDelay
  | none => min (opts.initialDelay * opts.backoffMultiplier ^ retryCount) opts.maxDelay

/-- The body of `ApiClient.request`, recursing on the number of retries
still allowed (`remaining = maxRetries - retryCount`, so the source's
guard `retryCount < maxRetries` is exactly `remaining > 0`).  The
per-attempt fetch outcomes are supplied as a function of the retry
count.  Returns the final result (payload or thrown `ApiError`)
together with the list of waits performed.  A success needs
`response.ok && data.success`; otherwise the normalized error is built
and either thrown or, when the status is retryable and a retry remains,
the request recurses after the computed wait.  A transport failure
retries with pure backoff (no hint) and, once retries are exhausted, is
transformed into a network `ApiError`. -/
def requestAux (fetchOutcome : Nat → FetchOutcome α) (opts : ClientRetryOptions) :
    Nat → Nat → Except ApiError (Option α) × List Nat
  | 0, retryCount =>
    (match fetchOutcome retryCount with
     | .networkFailure =>
       (.error ⟨"Network error. Please check your connection.", none⟩, [])
     | .response status success message retryAfter data =>
       if statusOk status && success then (.ok data, [])
       else
         (.error ⟨message.getD ("HTTP error! status: " ++ toString status),
                  retryAfter⟩, []))
  | remaining + 1, retryCount =>
    (match fetchOutcome retryCount with
     | .networkFailure =>
       let d := min (opts.initialDelay * opts.backoffMultiplier ^ retryCount) opts.maxDelay
       let r := requestAux fetchOutcome opts remaining (retryCount + 1)
       (r.1, d :: r.2)
     | .response status success message retryAfter data =>
       if statusOk status && success then (.ok data, [])
       else
         let err : ApiError :=
           ⟨message.getD ("HTTP error! status: " ++ toString status), retryAfter⟩
         if shouldRetry false (some status) then
           let d := clientDelay opts retryCount retryAfter
           let r := requestAux fetchOutcome opts remaining (retryCount + 1)
           (r.1, d :: r.2)
         else (.error err, []))

/-- `ApiClient.request(endpoint, options, retryCount)`. -/
def request (fetchOutcome : Nat → FetchOutcome α) (opts : ClientRetryOptions)
    (retryCount : Nat) : Except ApiError (Option α) × List Nat :=
  requestAux fetchOutcome opts (opts.maxRetries - retryCount) retryCount

/-! ## Idempotency middleware (`middleware/idempotency.ts`) -/

/-- JSON values, enough to talk about response bodies byte-for-byte. -/
inductive JsonBody where
  | null
  | boolVal (b : Bool)
  | num (n : Int)
  | str (s : String)
  | obj (fields : List (String × JsonBody))
deriving Repr

/-- The process-wide `requestCache` map, newest binding first
(`Map.get` returns the most recent `Map.set` for a key, i.e. the first
binding here). -/
abbrev Cache := List (String × JsonBody)

/-- `requestCache.get(key)` (`none` also covers `has = false`). -/
def cacheGet (cache : Cache) (k : String) : Option JsonBody :=
  (cache.find? (fun e => e.1 == k)).map (fun e => e.2)

/-- `requestCache.set(key, data)`. -/
def cacheSet (cache : Cache) (k : String) (v : JsonBody) : Cache :=
  (k, v) :: cache

/-- The body served on a cache hit:
`{ success: true, message: 'Request processed successfully', data: cached }`. -/
def wrapCached (cached : JsonBody) : JsonBody :=
  .obj [("success", .boolVal true),
        ("message", .str "Request processed successfully"),
        ("data", cached)]

/-- One request through the app with `idempotencyMiddleware` installed
app-wide (`app.use`, before any route): `requestId` is the
`x-request-id` header (`none` = absent, and an empty string is falsy
like an absent one); `handler` is the rest of the chain — the route
handler for the method and path, producing a status and a JSON body.
Returns the updated cache, the response status, the response body, and
whether the handler ran. -/
def processRequest (cache : Cache) (method path : String)
    (requestId : Option String)
    (handler : String → String → Nat × JsonBody) :
    Cache × Nat × JsonBody × Bool :=
  match requestId with
  | none =>
    let r := handler method path
    (cache, r.1, r.2, true)
  | some k =>
    if k == "" then
      let r := handler method path
      (cache, r.1, r.2, true)
    else
      match cacheGet cache k with
      | some v => (cache, 200, wrapCached v, false)
      | none =>
        let r := handler method path
        (cacheSet cache k r.2, r.1, r.2, true)

/-! ## Concrete instances used to exercise the definitions -/

/-- A concrete transient (connection-class) Mongo error. -/
def connError : MongoError := ⟨some "MongoNetworkError", none, none⟩

/-- A concrete non-transient error (a validation failure). -/
def validationError : MongoError := ⟨some "ValidationError", none, some "title required"⟩

/-- A storage operation failing transiently on attempts 0–2 and
succeeding on attempt 3. -/
def flaky3Op : Operation Nat :=
  fun i => if i < 3 then .error connError else .ok 42

/-- The `ApiClient` default retry configuration. -/
def defaultClientOptions : ClientRetryOptions := ⟨3, 1000, 10000, 2⟩

/-- Fetch outcomes: first a 503 whose body carries `retryAfter: 0`,
then a plain success. -/
def retryAfterZeroOutcome : Nat → FetchOutcome Nat :=
  fun i => if i == 0 then .response 503 false (some "Service temporarily unavailable") (some 0) none
           else .response 200 true none none (some 9)

/-- Fetch outcomes: first a 503 whose body carries `retryAfter: 5`,
then a plain success. -/
def retryAfterFiveOutcome : Nat → FetchOutcome Nat :=
  fun i => if i == 0 then .response 503 false (some "Service temporarily unavailable") (some 5) none
           else .response 200 true none none (some 9)

/-- A response body as `createWorkspace`/`createPage` would produce it. -/
def createdBody : JsonBody :=
  .obj [("success", .boolVal true), ("data", .str "workspace-1")]

/-- A route handler always answering `201` with `createdBody`. -/
def createHandler : String → String → Nat × JsonBody :=
  fun _ _ => (201, createdBody)

/-! ## Helper lemmas -/

theorem findById_cons (q : Page) (rest : Store) (pid : Nat) :
    findById (q :: rest) pid = if q.id == pid then some q else findById rest pid := by
  cases h : q.id == pid <;> simp [findById, List.find?_cons, h]

theorem findOneAndUpdate_found (store : Store) (pid cond : Nat) (t c : String) (p : Page)
    (hfind : findById store pid = some p) (hv : p.v = cond) :
    (findOneAndUpdate store pid cond t c).2 = some (applyUpd p t c) ∧
    findById (findOneAndUpdate store pid cond t c).1 pid = some (applyUpd p t c) := by
  induction store with
  | nil => simp [findById] at hfind
  | cons q rest ih =>
    rw [findById_cons] at hfind
    by_cases hq : (q.id == pid) = true
    · rw [if_pos hq] at hfind
      obtain rfl : q = p := by injection hfind
      have hguard : (q.id == pid && q.v == cond) = true := by
        simp [hq, hv]
      refine ⟨by simp [findOneAndUpdate, hguard], ?_⟩
      simp only [findOneAndUpdate, hguard, if_true]
      rw [findById_cons]
      simp [applyUpd, hq]
    · rw [if_neg hq] at hfind
      have hq' : (q.id == pid) = false := by simpa using hq
      have hguard : (q.id == pid && q.v == cond) = false := by
        simp [hq']
      obtain ⟨ih1, ih2⟩ := ih hfind
      refine ⟨by simpa [findOneAndUpdate, hguard] using ih1, ?_⟩
      simp only [findOneAndUpdate, hguard, Bool.false_eq_true, if_false]
      rw [findById_cons]
      simpa [hq'] using ih2

theorem findOneAndUpdate_none (store : Store) (pid cond : Nat) (t c : String)
    (h : (findOneAndUpdate store pid cond t c).2 = none) :
    (findOneAndUpdate store pid cond t c).1 = store := by
  induction store with
  | nil => rfl
  | cons q rest ih =>
    by_cases hg : (q.id == pid && q.v == cond) = true
    · simp [findOneAndUpdate, hg] at h
    · have hg' : (q.id == pid && q.v == cond) = false := by simpa using hg
      simp only [findOneAndUpdate, hg', Bool.false_eq_true, if_false] at h ⊢
      simpa using ih (by simpa using h)

theorem runUpdates_version (pid : Nat) (bodies : List (String × String)) :
    ∀ (store : Store) (p : Page), findById store pid = some p →
      ∃ q, findById (runUpdates pid store bodies) pid = some q ∧
        q.v = p.v + bodies.length := by
  induction bodies with
  | nil =>
    intro store p hfind
    exact ⟨p, by simpa [runUpdates] using hfind, by simp⟩
  | cons tc rest ih =>
    intro store p hfind
    obtain ⟨t, c⟩ := tc
    have hsucc := findOneAndUpdate_found store pid p.v t c p hfind rfl
    have hstep : (updatePage store pid ⟨t, c, some p.v⟩).1 =
        (findOneAndUpdate store pid p.v t c).1 := by
      unfold updatePage readPhase
      rw [hfind]
      simp [strictEqNum, writePhase]
    have hfind' : findById (updatePage store pid ⟨t, c, some p.v⟩).1 pid =
        some (applyUpd p t c) := by
      rw [hstep]; exact hsucc.2
    obtain ⟨q, hq, hqv⟩ := ih _ _ hfind'
    refine ⟨q, ?_, ?_⟩
    · simpa [runUpdates, hfind] using hq
    · rw [hqv]; simp [applyUpd]; omega

/-! ## The claims -/

/-- C1: an update whose submitted `__v` differs from the stored version
returns the 409 ConflictDescriptor with `serverVersion` = the stored
version, `clientVersion` = the submitted version, the server's stored
content and the client's submitted content, and leaves storage
unchanged. -/
theorem updatePage_staleVersion_conflict (store : Store) (pid n : Nat)
    (body : UpdateBody) (p : Page)
    (hfind : findById store pid = some p) (hv : body.v = some n) (hne : n ≠ p.v) :
    updatePage store pid body =
      (store, .conflict p.v (some n) p.content body.content) := by
  have hne' : strictEqNum p.v (some n) = false := by
    simp [strictEqNum, beq_eq_false_iff_ne]
    omega
  unfold updatePage readPhase
  rw [hfind]
  simp [hne', writePhase, hv]

theorem updatePage_staleVersion_conflict_witness :
    updatePage [⟨1, 7, "t", "c", 1⟩] 1 ⟨"x", "y", some 0⟩ =
      ([⟨1, 7, "t", "c", 1⟩], .conflict 1 (some 0) "c" "y") :=
  updatePage_staleVersion_conflict _ 1 0 _ ⟨1, 7, "t", "c", 1⟩ rfl rfl (by decide)

/-- C2: an update whose submitted `__v` equals the stored version makes
the conditional write succeed: the response is 200 with the updated
document, which carries the new title and content and a version
incremented by exactly 1, the store now holds that document, and a page
starting at `v = 0` reaches `v = N` after `N` successful updates. -/
theorem updatePage_matchingVersion_succeeds (store : Store) (pid : Nat)
    (body : UpdateBody) (p : Page)
    (hfind : findById store pid = some p) (hv : body.v = some p.v) :
    (updatePage store pid body).2 = .ok (some (applyUpd p body.title body.content)) ∧
    (applyUpd p body.title body.content).v = p.v + 1 ∧
    (applyUpd p body.title body.content).title = body.title ∧
    (applyUpd p body.title body.content).content = body.content ∧
    findById (updatePage store pid body).1 pid =
      some (applyUpd p body.title body.content) ∧
    (p.v = 0 → ∀ bodies : List (String × String),
      ∃ q, findById (runUpdates pid store bodies) pid = some q ∧
        q.v = bodies.length) := by
  have hfu := findOneAndUpdate_found store pid p.v body.title body.content p hfind rfl
  have hupd : updatePage store pid body =
      ((findOneAndUpdate store pid p.v body.title body.content).1,
        .ok (findOneAndUpdate store pid p.v body.title body.content).2) := by
    unfold updatePage readPhase
    rw [hfind, hv]
    simp [strictEqNum, writePhase]
  refine ⟨?_, by simp [applyUpd], by simp [applyUpd], by simp [applyUpd], ?_, ?_⟩
  · rw [hupd]; simp [hfu.1]
  · rw [hupd]; exact hfu.2
  · intro h0 bodies
    obtain ⟨q, hq, hqv⟩ := runUpdates_version pid bodies store p hfind
    exact ⟨q, hq, by omega⟩

theorem updatePage_matchingVersion_succeeds_witness :
    (updatePage [⟨1, 7, "t", "c", 0⟩] 1 ⟨"t2", "c2", some 0⟩).2 =
      .ok (some (applyUpd ⟨1, 7, "t", "c", 0⟩ "t2" "c2")) ∧
    (applyUpd (⟨1, 7, "t", "c", 0⟩ : Page) "t2" "c2").v = 0 + 1 ∧
    (applyUpd (⟨1, 7, "t", "c", 0⟩ : Page) "t2" "c2").title = "t2" ∧
    (applyUpd (⟨1, 7, "t", "c", 0⟩ : Page) "t2" "c2").content = "c2" ∧
    findById (updatePage [⟨1, 7, "t", "c", 0⟩] 1 ⟨"t2", "c2", some 0⟩).1 1 =
      some (applyUpd ⟨1, 7, "t", "c", 0⟩ "t2" "c2") ∧
    ((0 : Nat) = 0 → ∀ bodies : List (String × String),
      ∃ q, findById (runUpdates 1 [⟨1, 7, "t", "c", 0⟩] bodies) 1 = some q ∧
        q.v = bodies.length) :=
  updatePage_matchingVersion_succeeds _ 1 _ ⟨1, 7, "t", "c", 0⟩ rfl rfl

/-- C6 counterexample: on a page whose stored version is 0, an update
with `__v` absent yields a 409 conflict, while the same update with
`__v = 0` succeeds — so an absent `clientVersion` is not treated as
version 0. -/
theorem updatePage_missingVersion_counterexample :
    (updatePage [⟨1, 7, "t", "c", 0⟩] 1 ⟨"x", "y", none⟩).2 =
      .conflict 0 none "c" "y" ∧
    (updatePage [⟨1, 7, "t", "c", 0⟩] 1 ⟨"x", "y", some 0⟩).2 =
      .ok (some ⟨1, 7, "x", "y", 1⟩) := by
  decide

/-- C6 amended: an update with `__v` absent/undefined is never treated
as version 0 — the strict comparison of the numeric stored version with
`undefined` always fails, so such a request always yields the 409
ConflictDescriptor (with `clientVersion` undefined) and never mutates
storage, even when the stored version is 0. -/
theorem updatePage_missingVersion_conflicts (store : Store) (pid : Nat)
    (body : UpdateBody) (p : Page)
    (hfind : findById store pid = some p) (hv : body.v = none) :
    updatePage store pid body =
      (store, .conflict p.v none p.content body.content) := by
  unfold updatePage readPhase
  rw [hfind, hv]
  simp [strictEqNum, writePhase]

theorem updatePage_missingVersion_conflicts_witness :
    updatePage [⟨1, 7, "t", "c", 0⟩] 1 ⟨"x", "y", none⟩ =
      ([⟨1, 7, "t", "c", 0⟩], .conflict 0 none "c" "y") :=
  updatePage_missingVersion_conflicts _ 1 _ ⟨1, 7, "t", "c", 0⟩ rfl rfl

/-- C3 counterexample: two updates race with the same, now-stale,
version 0 and both pass the version check before either writes
(interleaving rA rB wA wB): A commits and gets the updated record at
version 1, but B does not observe a conflict — it receives a 200
success response with `data: null`. -/
theorem runTwo_bothStale_counterexample :
    (runTwo [⟨1, 7, "t", "c", 0⟩] 1 ⟨"tA", "cA", some 0⟩ ⟨"tB", "cB", some 0⟩
        .rArBwAwB).2.1 = .ok (some ⟨1, 7, "tA", "cA", 1⟩) ∧
    (runTwo [⟨1, 7, "t", "c", 0⟩] 1 ⟨"tA", "cA", some 0⟩ ⟨"tB", "cB", some 0⟩
        .rArBwAwB).2.2 = .ok none ∧
    isConflict (runTwo [⟨1, 7, "t", "c", 0⟩] 1 ⟨"tA", "cA", some 0⟩ ⟨"tB", "cB", some 0⟩
        .rArBwAwB).2.2 = false := by
  decide

/-- C3 amended: for two concurrent updates to the same page submitting
the same (initially current) version, under every interleaving exactly
one request — the one whose conditional write executes first — commits:
its response is 200 with the updated document (its title/content, and
version old+1), the final store holds exactly that document; the other
request observes a 409 conflict reporting `serverVersion` old+1 and the
winner's committed content precisely when its read follows the winner's
write, and receives a 200 success response with `data: null` precisely
when its read preceded the winner's write; they never both commit. -/
theorem runTwo_sameVersion_exactlyOne (sched : Schedule2) (p : Page) (pid : Nat)
    (tA cA tB cB : String) (hid : p.id = pid) :
    let out := runTwo [p] pid ⟨tA, cA, some p.v⟩ ⟨tB, cB, some p.v⟩ sched
    let wT := if firstWriter sched then tA else tB
    let wC := if firstWriter sched then cA else cB
    let lC := if firstWriter sched then cB else cA
    (if firstWriter sched then out.2.1 else out.2.2) =
      .ok (some (applyUpd p wT wC)) ∧
    (if firstWriter sched then out.2.2 else out.2.1) =
      (if loserReadsAfterWinnerWrite sched then
        .conflict (p.v + 1) (some p.v) wC lC
      else .ok none) ∧
    out.1 = [applyUpd p wT wC] ∧
    (applyUpd p wT wC).v = p.v + 1 := by
  subst hid
  have hne : (p.v + 1 == p.v) = false := by
    simp [beq_eq_false_iff_ne]
  cases sched <;>
    simp [runTwo, readPhase, writePhase, findById, List.find?, strictEqNum,
      findOneAndUpdate, applyUpd, firstWriter, loserReadsAfterWinnerWrite, hne]

theorem runTwo_sameVersion_exactlyOne_witness :
    let out := runTwo [(⟨1, 7, "t", "c", 0⟩ : Page)] 1 ⟨"tA", "cA", some 0⟩
      ⟨"tB", "cB", some 0⟩ .rAwArBwB
    out.2.1 = .ok (some (applyUpd ⟨1, 7, "t", "c", 0⟩ "tA" "cA")) ∧
    out.2.2 = .conflict (0 + 1) (some 0) "cA" "cB" ∧
    out.1 = [applyUpd ⟨1, 7, "t", "c", 0⟩ "tA" "cA"] ∧
    (applyUpd (⟨1, 7, "t", "c", 0⟩ : Page) "tA" "cA").v = 0 + 1 :=
  runTwo_sameVersion_exactlyOne .rAwArBwB ⟨1, 7, "t", "c", 0⟩ 1 "tA" "cA" "tB" "cB" rfl

/-- C4 counterexample: the read sees version 0, a concurrent writer has
moved the page to version 1 before the conditional write, the write
matches zero records — and `updatePage` answers with a 200 success
response carrying `data: null`, not with a re-fetched
ConflictDescriptor. -/
theorem updatePage_zeroMatch_counterexample :
    updatePageInterleaved [⟨1, 7, "t", "c", 0⟩] [⟨1, 7, "t2", "c2", 1⟩] 1
        ⟨"x", "y", some 0⟩ = ([⟨1, 7, "t2", "c2", 1⟩], .ok none) ∧
    isConflict (updatePageInterleaved [⟨1, 7, "t", "c", 0⟩] [⟨1, 7, "t2", "c2", 1⟩] 1
        ⟨"x", "y", some 0⟩).2 = false := by
  decide

/-- C4 amended: whenever the conditional write matches zero records
(another writer changed the version between the initial read and the
write), `updatePage` does not re-fetch and does not return a
ConflictDescriptor: it returns an HTTP 200 success response with
`data: null`, leaving the store as the concurrent writer left it. -/
theorem updatePage_zeroMatch_nullSuccess (sRead sWrite : Store) (pid : Nat)
    (body : UpdateBody) (p : Page)
    (hfind : findById sRead pid = some p) (heq : strictEqNum p.v body.v = true)
    (hnone : (findOneAndUpdate sWrite pid (body.v.getD 0) body.title body.content).2 =
      none) :
    updatePageInterleaved sRead sWrite pid body = (sWrite, .ok none) := by
  have h1 := findOneAndUpdate_none sWrite pid (body.v.getD 0) body.title body.content hnone
  unfold updatePageInterleaved readPhase
  rw [hfind]
  simp [heq, writePhase, h1, hnone]

theorem updatePage_zeroMatch_nullSuccess_witness :
    updatePageInterleaved [⟨1, 7, "t", "c", 0⟩] [⟨1, 7, "t3", "c3", 1⟩] 1
      ⟨"x", "y", some 0⟩ = ([⟨1, 7, "t3", "c3", 1⟩], .ok none) :=
  updatePage_zeroMatch_nullSuccess _ _ 1 _ ⟨1, 7, "t", "c", 0⟩ rfl rfl rfl

theorem filter_workspace_pages_gone (l : List Page) (wid : Nat) :
    (l.filter (fun p => !(p.workspaceId == wid))).filter
      (fun p => p.workspaceId == wid) = [] := by
  induction l with
  | nil => rfl
  | cons a l ih =>
    by_cases h : (a.workspaceId == wid) = true <;>
      simp [List.filter_cons, h, ih]

theorem find_workspace_gone (l : List Workspace) (wid : Nat) :
    (l.filter (fun w => !(w.id == wid))).find? (fun w => w.id == wid) = none := by
  induction l with
  | nil => rfl
  | cons a l ih =>
    by_cases h : (a.id == wid) = true <;>
      simp [List.filter_cons, List.find?_cons, h, ih]

/-- C7: deleting a workspace cascades — the pre-delete hook removes all
pages referencing it before the workspace record is removed, so after a
successful deletion no page references the workspace and the workspace
is gone (with N pages all N are removed; with zero pages it succeeds
trivially, since the hypotheses do not constrain the page list); and
when the dependent-page deletion fails, the workspace record (indeed
the whole store) is left untouched. -/
theorem deleteWorkspace_cascade (db : DB) (wid : Nat) (w : Workspace)
    (hw : db.workspaces.find? (fun w' => w'.id == wid) = some w) :
    (deleteWorkspace db wid true).2 = .okDeleted ∧
    (deleteWorkspace db wid true).1.pages =
      db.pages.filter (fun p => !(p.workspaceId == wid)) ∧
    (deleteWorkspace db wid true).1.pages.filter
      (fun p => p.workspaceId == wid) = [] ∧
    (deleteWorkspace db wid true).1.workspaces.find? (fun w' => w'.id == wid) = none ∧
    (deleteWorkspace db wid false).1 = db ∧
    (deleteWorkspace db wid false).2 = .serverError := by
  have hdel : deleteWorkspace db wid true =
      ({ workspaces := db.workspaces.filter (fun w' => !(w'.id == wid)),
         pages := db.pages.filter (fun p => !(p.workspaceId == wid)) }, .okDeleted) := by
    unfold deleteWorkspace findByIdAndDeleteWorkspace
    simp [hw]
  refine ⟨by rw [hdel], by rw [hdel], ?_, ?_, rfl, rfl⟩
  · rw [hdel]
    exact filter_workspace_pages_gone db.pages wid
  · rw [hdel]
    exact find_workspace_gone db.workspaces wid

theorem deleteWorkspace_cascade_witness :
    (deleteWorkspace ⟨[⟨5, "w"⟩], [⟨1, 5, "a", "b", 0⟩, ⟨2, 5, "c", "d", 1⟩,
        ⟨3, 5, "e", "f", 0⟩]⟩ 5 true).2 = .okDeleted ∧
    (deleteWorkspace ⟨[⟨5, "w"⟩], [⟨1, 5, "a", "b", 0⟩, ⟨2, 5, "c", "d", 1⟩,
        ⟨3, 5, "e", "f", 0⟩]⟩ 5 true).1.pages =
      [⟨1, 5, "a", "b", 0⟩, ⟨2, 5, "c", "d", 1⟩,
        ⟨3, 5, "e", "f", 0⟩].filter (fun p => !(p.workspaceId == 5)) ∧
    (deleteWorkspace ⟨[⟨5, "w"⟩], [⟨1, 5, "a", "b", 0⟩, ⟨2, 5, "c", "d", 1⟩,
        ⟨3, 5, "e", "f", 0⟩]⟩ 5 true).1.pages.filter
      (fun p => p.workspaceId == 5) = [] ∧
    (deleteWorkspace ⟨[⟨5, "w"⟩], [⟨1, 5, "a", "b", 0⟩, ⟨2, 5, "c", "d", 1⟩,
        ⟨3, 5, "e", "f", 0⟩]⟩ 5 true).1.workspaces.find?
      (fun w' => w'.id == 5) = none ∧
    (deleteWorkspace ⟨[⟨5, "w"⟩], [⟨1, 5, "a", "b", 0⟩, ⟨2, 5, "c", "d", 1⟩,
        ⟨3, 5, "e", "f", 0⟩]⟩ 5 false).1 =
      ⟨[⟨5, "w"⟩], [⟨1, 5, "a", "b", 0⟩, ⟨2, 5, "c", "d", 1⟩, ⟨3, 5, "e", "f", 0⟩]⟩ ∧
    (deleteWorkspace ⟨[⟨5, "w"⟩], [⟨1, 5, "a", "b", 0⟩, ⟨2, 5, "c", "d", 1⟩,
        ⟨3, 5, "e", "f", 0⟩]⟩ 5 false).2 = .serverError :=
  deleteWorkspace_cascade _ 5 ⟨5, "w"⟩ rfl

theorem expDelays_succ (k d maxDelay mult : Nat) :
    expDelays (k + 1) d maxDelay mult =
      min d maxDelay :: expDelays k (d * mult) maxDelay mult := by
  unfold expDelays
  rw [List.range_succ_eq_map, List.map_cons, List.map_map]
  congr 1
  · simp
  · refine List.map_congr_left (fun i _ => ?_)
    simp only [Function.comp_apply]
    congr 1
    rw [pow_succ]
    ring

theorem retryAux_zero (op : Operation α) (maxDelay mult attempt d : Nat) :
    retryAux op maxDelay mult 0 attempt d = (op attempt, []) := rfl

theorem retryAux_ok (op : Operation α) (maxDelay mult m attempt d : Nat) (v : α)
    (h : op attempt = .ok v) :
    retryAux op maxDelay mult m attempt d = (.ok v, []) := by
  cases m <;> simp [retryAux, h]

theorem retryAux_nontransient (op : Operation α) (maxDelay mult m attempt d : Nat)
    (e : MongoError) (he : op attempt = .error e)
    (hc : isMongoConnectionError e = false) :
    retryAux op maxDelay mult m attempt d = (.error e, []) := by
  cases m <;> simp [retryAux, he, hc]

theorem retryAux_transient_prefix (op : Operation α) (maxDelay mult : Nat) :
    ∀ (k remaining attempt d : Nat), k ≤ remaining →
      (∀ i, i < k → ∃ e, op (attempt + i) = .error e ∧
        isMongoConnectionError e = true) →
      retryAux op maxDelay mult remaining attempt d =
        ((retryAux op maxDelay mult (remaining - k) (attempt + k) (d * mult ^ k)).1,
          expDelays k d maxDelay mult ++
            (retryAux op maxDelay mult (remaining - k) (attempt + k)
              (d * mult ^ k)).2) := by
  intro k
  induction k with
  | zero =>
    intro remaining attempt d _ _
    simp [expDelays]
  | succ k ih =>
    intro remaining attempt d hk htrans
    obtain ⟨rem, rfl⟩ : ∃ rem, remaining = rem + 1 := ⟨remaining - 1, by omega⟩
    obtain ⟨e, he, hconn⟩ := htrans 0 (by omega)
    rw [Nat.add_zero] at he
    have e1 : rem + 1 - (k + 1) = rem - k := by omega
    have e2 : attempt + (k + 1) = attempt + 1 + k := by omega
    have e3 : d * mult ^ (k + 1) = d * mult * mult ^ k := by
      rw [pow_succ]; ring
    have step : retryAux op maxDelay mult (rem + 1) attempt d =
        ((retryAux op maxDelay mult rem (attempt + 1) (d * mult)).1,
          min d maxDelay ::
            (retryAux op maxDelay mult rem (attempt + 1) (d * mult)).2) := by
      simp [retryAux, he, hconn]
    have ih' := ih rem (attempt + 1) (d * mult) (by omega)
      (fun i hi => by
        obtain ⟨e', he', hc'⟩ := htrans (i + 1) (by omega)
        exact ⟨e', by rwa [show attempt + 1 + i = attempt + (i + 1) by omega], hc'⟩)
    rw [e1, e2, e3, expDelays_succ, step, ih']
    simp [List.cons_append]

/-- C8: `retryMongoOperation` retries only connection-class failures:
after `k` consecutive transient failures, a success on the next attempt
returns that value, a non-transient error on the next attempt is thrown
at once with no further delay, and on the last allowed attempt
(`k = maxRetries`) any error — the last observed one — is thrown; in
each case exactly `k` waits happened, the `i`-th (0-based) being
`min(initialDelay × multiplier^i, maxDelay)`, i.e.
`min(initialDelay × multiplier^(j−1), maxDelay)` before the `j`-th
(1-based) retry. -/
theorem retryMongoOperation_spec (op : Operation α)
    (maxRetries initialDelay maxDelay mult k : Nat) (hk : k ≤ maxRetries)
    (htrans : ∀ i, i < k → ∃ e, op i = .error e ∧ isMongoConnectionError e = true) :
    (∀ v, op k = .ok v →
      retryMongoOperation op maxRetries initialDelay maxDelay mult =
        (.ok v, expDelays k initialDelay maxDelay mult)) ∧
    (∀ e, op k = .error e → isMongoConnectionError e = false →
      retryMongoOperation op maxRetries initialDelay maxDelay mult =
        (.error e, expDelays k initialDelay maxDelay mult)) ∧
    (k = maxRetries → ∀ e, op k = .error e →
      retryMongoOperation op maxRetries initialDelay maxDelay mult =
        (.error e, expDelays k initialDelay maxDelay mult)) ∧
    expDelays k initialDelay maxDelay mult =
      (List.range k).map (fun i => min (initialDelay * mult ^ i) maxDelay) := by
  have hpre := retryAux_transient_prefix op maxDelay mult k maxRetries 0 initialDelay hk
    (fun i hi => by simpa using htrans i hi)
  refine ⟨?_, ?_, ?_, rfl⟩
  · intro v hv
    unfold retryMongoOperation
    rw [hpre, retryAux_ok op maxDelay mult _ _ _ v (by simpa using hv)]
    simp
  · intro e he hc
    unfold retryMongoOperation
    rw [hpre, retryAux_nontransient op maxDelay mult _ _ _ e (by simpa using he) hc]
    simp
  · intro hkeq e he
    unfold retryMongoOperation
    rw [hpre]
    have h0 : maxRetries - k = 0 := by omega
    rw [h0, retryAux_zero]
    simp [he]

theorem retryMongoOperation_spec_witness :
    retryMongoOperation flaky3Op 3 1000 10000 2 = (.ok 42, [1000, 2000, 4000]) := by
  have h := (retryMongoOperation_spec flaky3Op 3 1000 10000 2 3 (by decide)
    (fun i hi => ⟨connError, by simp [flaky3Op, hi], by decide⟩)).1 42 rfl
  rw [h]
  rfl

theorem shouldRetry_status (s : Nat) : shouldRetry false (some s) = retryableStatus s := by
  by_cases h : s = 0
  · subst h; decide
  · have h0 : (s == 0) = false := by simpa using h
    simp [shouldRetry, h0]

/-- C9 counterexample: a 503 response whose body carries the hint
`retryAfter: 0` is followed by the computed backoff wait of
`min(initialDelay × multiplier^0, maxDelay)` = 1000 ms, not by the
claimed `min(serverHint × 1000, maxDelay)` = 0 ms: a zero hint is falsy
and is ignored. -/
theorem request_retryAfterZero_counterexample :
    request retryAfterZeroOutcome defaultClientOptions 0 = (.ok (some 9), [1000]) ∧
    (1000 : Nat) ≠ min (0 * 1000) defaultClientOptions.maxDelay := by
  exact ⟨rfl, by decide⟩

/-- C9 amended: the client retries exactly on transport failure and on
statuses 429/502/503/504 (never 400/401/403/404/409); while the retry
count is below max retries it waits `min(hint × 1000, maxDelay)` for a
truthy (non-zero) `retryAfter` hint and
`min(initialDelay × multiplier^attempt, maxDelay)` otherwise (absent —
or zero — hint), then re-attempts with an incremented count; on a
non-retryable status, or once retries are exhausted, it throws the
normalized error. -/
theorem request_retry_spec (f : Nat → FetchOutcome α) (opts : ClientRetryOptions)
    (rc status : Nat) (success : Bool) (message : Option String)
    (ra : Option Nat) (data : Option α) :
    (shouldRetry true none = true) ∧
    (∀ s, shouldRetry false (some s) = retryableStatus s) ∧
    (retryableStatus 429 = true ∧ retryableStatus 502 = true ∧
      retryableStatus 503 = true ∧ retryableStatus 504 = true ∧
      retryableStatus 400 = false ∧ retryableStatus 401 = false ∧
      retryableStatus 403 = false ∧ retryableStatus 404 = false ∧
      retryableStatus 409 = false) ∧
    (∀ h, h ≠ 0 → clientDelay opts rc (some h) = min (h * 1000) opts.maxDelay) ∧
    (clientDelay opts rc none =
      min (opts.initialDelay * opts.backoffMultiplier ^ rc) opts.maxDelay) ∧
    (f rc = .response status success message ra data →
      (statusOk status && success) = false → retryableStatus status = true →
      rc < opts.maxRetries →
      request f opts rc =
        ((request f opts (rc + 1)).1,
          clientDelay opts rc ra :: (request f opts (rc + 1)).2)) ∧
    (f rc = .networkFailure → rc < opts.maxRetries →
      request f opts rc =
        ((request f opts (rc + 1)).1,
          min (opts.initialDelay * opts.backoffMultiplier ^ rc) opts.maxDelay ::
            (request f opts (rc + 1)).2)) ∧
    (f rc = .response status success message ra data →
      (statusOk status && success) = false → retryableStatus status = false →
      request f opts rc =
        (.error ⟨message.getD ("HTTP error! status: " ++ toString status), ra⟩, [])) ∧
    (opts.maxRetries ≤ rc → f rc = .response status success message ra data →
      (statusOk status && success) = false →
      request f opts rc =
        (.error ⟨message.getD ("HTTP error! status: " ++ toString status), ra⟩, [])) ∧
    (opts.maxRetries ≤ rc → f rc = .networkFailure →
      request f opts rc =
        (.error ⟨"Network error. Please check your connection.", none⟩, [])) := by
  refine ⟨rfl, shouldRetry_status, by decide, ?_, rfl, ?_, ?_, ?_, ?_, ?_⟩
  · intro h hne
    have h0 : (h == 0) = false := by simpa using hne
    simp [clientDelay, h0]
  · intro hresp hok hretry hlt
    obtain ⟨m, hm⟩ : ∃ m, opts.maxRetries - rc = m + 1 :=
      ⟨opts.maxRetries - rc - 1, by omega⟩
    have hm' : opts.maxRetries - (rc + 1) = m := by omega
    have hsr : shouldRetry false (some status) = true := by
      rw [shouldRetry_status]; exact hretry
    unfold request
    rw [hm, hm']
    simp [requestAux, hresp, hok, hsr]
  · intro hnet hlt
    obtain ⟨m, hm⟩ : ∃ m, opts.maxRetries - rc = m + 1 :=
      ⟨opts.maxRetries - rc - 1, by omega⟩
    have hm' : opts.maxRetries - (rc + 1) = m := by omega
    unfold request
    rw [hm, hm']
    simp [requestAux, hnet]
  · intro hresp hok hretry
    have hsr : shouldRetry false (some status) = false := by
      rw [shouldRetry_status]; exact hretry
    unfold request
    rcases Nat.lt_or_ge rc opts.maxRetries with hlt | hge
    · obtain ⟨m, hm⟩ : ∃ m, opts.maxRetries - rc = m + 1 :=
        ⟨opts.maxRetries - rc - 1, by omega⟩
      rw [hm]
      simp [requestAux, hresp, hok, hsr]
    · have h0 : opts.maxRetries - rc = 0 := by omega
      rw [h0]
      simp [requestAux, hresp, hok]
  · intro hge hresp hok
    have h0 : opts.maxRetries - rc = 0 := by omega
    unfold request
    rw [h0]
    simp [requestAux, hresp, hok]
  · intro hge hnet
    have h0 : opts.maxRetries - rc = 0 := by omega
    unfold request
    rw [h0]
    simp [requestAux, hnet]

theorem request_retry_spec_witness :
    request retryAfterFiveOutcome defaultClientOptions 0 =
      ((request retryAfterFiveOutcome defaultClientOptions 1).1,
        clientDelay defaultClientOptions 0 (some 5) ::
          (request retryAfterFiveOutcome defaultClientOptions 1).2) ∧
    clientDelay defaultClientOptions 0 (some 5) =
      min (5 * 1000) defaultClientOptions.maxDelay :=
  ⟨(request_retry_spec retryAfterFiveOutcome defaultClientOptions 0 503 false
      (some "Service temporarily unavailable") (some 5) none).2.2.2.2.2.1
        rfl rfl rfl (by decide),
    (request_retry_spec retryAfterFiveOutcome defaultClientOptions 0 503 false
      (some "Service temporarily unavailable") (some 5) none).2.2.2.1 5
        (by decide)⟩

/-- C5 counterexample: a create answered `201` with its JSON body is
replayed, for the same request id, as `200` with the wrapper body
`{success, message, data}` around the first body — the replay is not
byte-for-byte identical to the first response (different body, different
status), even though the handler is not re-invoked. -/
theorem idempotency_not_verbatim_counterexample :
    processRequest [] "POST" "/api/workspaces" (some "r1") createHandler =
      ([("r1", createdBody)], 201, createdBody, true) ∧
    processRequest [("r1", createdBody)] "POST" "/api/workspaces" (some "r1")
        createHandler =
      ([("r1", createdBody)], 200, wrapCached createdBody, false) ∧
    wrapCached createdBody ≠ createdBody ∧
    (200 : Nat) ≠ 201 := by
  refine ⟨rfl, rfl, ?_, by decide⟩
  simp [wrapCached, createdBody]

/-- C5 amended: for a request id with a cached response, the middleware
does re-use the first response without re-invoking the handler (so the
create executes exactly once), but the replay is not verbatim: it is
always an HTTP 200 whose body is the wrapper
`{success: true, message: 'Request processed successfully', data: b}`
around the first response's body `b`, so the original status and
success/failure shape are not preserved. -/
theorem idempotency_replay_wraps (cache : Cache) (k m1 p1 m2 p2 : String)
    (handler1 handler2 : String → String → Nat × JsonBody)
    (hk : (k == "") = false) (hmiss : cacheGet cache k = none) :
    processRequest cache m1 p1 (some k) handler1 =
      (cacheSet cache k (handler1 m1 p1).2, (handler1 m1 p1).1,
        (handler1 m1 p1).2, true) ∧
    processRequest (cacheSet cache k (handler1 m1 p1).2) m2 p2 (some k) handler2 =
      (cacheSet cache k (handler1 m1 p1).2, 200,
        wrapCached (handler1 m1 p1).2, false) := by
  have hhit : cacheGet (cacheSet cache k (handler1 m1 p1).2) k =
      some (handler1 m1 p1).2 := by
    simp [cacheGet, cacheSet, List.find?_cons]
  exact ⟨by simp [processRequest, hk, hmiss], by simp [processRequest, hk, hhit]⟩

theorem idempotency_replay_wraps_witness :
    processRequest [] "POST" "/api/w" (some "r2") createHandler =
      (cacheSet [] "r2" (createHandler "POST" "/api/w").2,
        (createHandler "POST" "/api/w").1, (createHandler "POST" "/api/w").2,
        true) ∧
    processRequest (cacheSet [] "r2" (createHandler "POST" "/api/w").2) "POST"
        "/api/w" (some "r2") createHandler =
      (cacheSet [] "r2" (createHandler "POST" "/api/w").2, 200,
        wrapCached (createHandler "POST" "/api/w").2, false) :=
  idempotency_replay_wraps [] "r2" "POST" "/api/w" "POST" "/api/w"
    createHandler createHandler rfl rfl

/-- C10: the idempotency middleware is installed app-wide and is not
scoped to method or path: for any method and path, a request whose
`x-request-id` is cached is answered 200 from the cached entry without
the route handler ever running; a request with a fresh id runs the
handler, stores whatever JSON body it produced (success or error body
alike) under the id, and every later request with that id — any method,
path or handler — gets the 200-wrapped replay. -/
theorem idempotency_cache_appWide (cache : Cache) (method path k : String)
    (v : JsonBody) (handler : String → String → Nat × JsonBody)
    (hk : (k == "") = false) :
    (cacheGet cache k = some v →
      processRequest cache method path (some k) handler =
        (cache, 200, wrapCached v, false)) ∧
    (cacheGet cache k = none →
      processRequest cache method path (some k) handler =
        (cacheSet cache k (handler method path).2, (handler method path).1,
          (handler method path).2, true) ∧
      (∀ (method' path' : String) (handler' : String → String → Nat × JsonBody),
        processRequest (cacheSet cache k (handler method path).2) method' path'
            (some k) handler' =
          (cacheSet cache k (handler method path).2, 200,
            wrapCached (handler method path).2, false))) := by
  constructor
  · intro hhit
    simp [processRequest, hk, hhit]
  · intro hmiss
    have hhit : cacheGet (cacheSet cache k (handler method path).2) k =
        some (handler method path).2 := by
      simp [cacheGet, cacheSet, List.find?_cons]
    exact ⟨by simp [processRequest, hk, hmiss],
      fun method' path' handler' => by simp [processRequest, hk, hhit]⟩

theorem idempotency_cache_appWide_witness :
    processRequest [("r9", JsonBody.null)] "PUT" "/api/pages/1" (some "r9")
        createHandler =
      ([("r9", JsonBody.null)], 200, wrapCached .null, false) :=
  (idempotency_cache_appWide [("r9", .null)] "PUT" "/api/pages/1" "r9" .null
    createHandler rfl).1 rfl

end NoteColab
